import Mathlib

/-!
Shallow embedding of the Flask quotes service (`src/app.py`): the data model
(`AuthorModel`, `QuoteModel`), the table-backed store, and the route handlers
for authors and quotes.  Request bodies are association lists of JSON values,
query strings are association lists of strings, and the commit outcome of the
store is an explicit `Option String` (`none` = commit succeeds, `some e` =
the store raises exception text `e`, in which case the session is rolled
back exactly where the source rolls back).
-/

namespace QuotesApp

/-- A JSON value as it can appear in a request body (`request.json`). -/
inductive JVal where
  | str (s : String)
  | int (n : Int)
  | bool (b : Bool)
  | null
deriving Repr, DecidableEq

/-- A JSON object body: association list from keys to JSON values. -/
abbrev Body := List (String × JVal)

/-- `AuthorModel`: id (surrogate key), name, surname (default `""`). -/
structure Author where
  id : Nat
  name : JVal
  surname : JVal
deriving Repr, DecidableEq

/-- `QuoteModel`: id (surrogate key), foreign key `author_id`, text,
rating (constructor default `1`). -/
structure Quote where
  id : Nat
  author_id : Nat
  text : JVal
  rating : JVal
deriving Repr, DecidableEq

/-- The table store: the two tables plus the autoincrement counters
that hand out surrogate keys on insert. -/
structure Store where
  authors : List Author
  quotes : List Quote
  nextAuthorId : Nat
  nextQuoteId : Nat
deriving Repr, DecidableEq

/-- A handler response: a JSON payload together with an HTTP status code.
Error responses are `msg status m`, matching `{'Message': m}` produced by
`handle_exception` from `abort(status, m)`. -/
inductive Resp where
  | authorJson (status : Nat) (a : Author)
  | quoteJson (status : Nat) (q : Quote)
  | quotesJson (status : Nat) (qs : List Quote)
  | msg (status : Nat) (m : String)
deriving Repr, DecidableEq

/-- The HTTP status code of a response. -/
def Resp.status : Resp → Nat
  | .authorJson st _ => st
  | .quoteJson st _ => st
  | .quotesJson st _ => st
  | .msg st _ => st

/-- `k in data` for a JSON body (Python dicts have unique keys; on an
association list the first binding is the one `data[k]` reads). -/
def hasKey (data : Body) (k : String) : Bool :=
  data.any (fun kv => kv.1 == k)

/-- `data.get(k)`: the first binding of `k`, if any. -/
def getKey (data : Body) (k : String) : Option JVal :=
  (data.find? (fun kv => kv.1 == k)).map (fun kv => kv.2)

/-- `data[k]` where the caller has checked `k in data`; the `.null`
default is unreachable under that guard. -/
def getKeyD (data : Body) (k : String) : JVal :=
  (getKey data k).getD .null

/-- `', '.join(data.keys())`, used in the 400 error messages. -/
def errKeys (data : Body) : String :=
  String.intercalate ", " (data.map (fun kv => kv.1))

/-- `db.session.get(AuthorModel, id)` (the lookup behind `db.get_or_404`). -/
def findAuthor (s : Store) (author_id : Nat) : Option Author :=
  s.authors.find? (fun a => a.id == author_id)

/-- `db.session.get(QuoteModel, id)` (the lookup behind `db.get_or_404`). -/
def findQuote (s : Store) (quote_id : Nat) : Option Quote :=
  s.quotes.find? (fun q => q.id == quote_id)

/-- The rating validation of `create_quote` and `edit_quote`:
`type(v) == int and v in range(1, 6)` (a Python `bool` is rejected because
its `type` is `bool`, not `int`; the handlers abort when this is false). -/
def ratingOk : JVal → Bool
  | .int n => decide (1 ≤ n) && decide (n ≤ 5)
  | _ => false

/-- `POST /authors` (`create_author`). -/
def create_author (s : Store) (data : Body) (commit : Option String) :
    Resp × Store :=
  if data.isEmpty then (.msg 400 "No valid data to update", s)
  else if hasKey data "name" then
    let a : Author :=
      { id := s.nextAuthorId,
        name := getKeyD data "name",
        surname := if hasKey data "surname" then getKeyD data "surname"
                   else .str "" }
    match commit with
    | none => (.authorJson 201 a,
        { s with authors := s.authors ++ [a],
                 nextAuthorId := s.nextAuthorId + 1 })
    | some e => (.msg 503 ("Error: " ++ e), s)
  else
    (.msg 400 ("Invalid data. Required: <name>, <surname> (optional). Received: "
        ++ errKeys data ++ "."), s)

/-- `POST /authors/<id>/quotes` (`create_quote`). -/
def create_quote (s : Store) (author_id : Nat) (data : Body)
    (commit : Option String) : Resp × Store :=
  if data.isEmpty then (.msg 400 "No valid data to update", s)
  else match findAuthor s author_id with
  | none =>
      (.msg 404 ("Author with id=" ++ toString author_id ++ " not found"), s)
  | some author =>
    if hasKey data "rating" && ! ratingOk (getKeyD data "rating") then
      (.msg 400 "Rating must be a number between 1 and 5.", s)
    else if hasKey data "text" then
      let q : Quote :=
        { id := s.nextQuoteId,
          author_id := author.id,
          text := getKeyD data "text",
          rating := if hasKey data "rating" then getKeyD data "rating"
                    else .int 1 }
      match commit with
      | none => (.quoteJson 201 q,
          { s with quotes := s.quotes ++ [q],
                   nextQuoteId := s.nextQuoteId + 1 })
      | some e => (.msg 503 ("Error: " ++ e ++ "."), s)
    else
      (.msg 400 ("Invalid data. Required: <text>, <rating> (optional). Received: "
          ++ errKeys data ++ "."), s)

/-- The field-by-field assignment loop of `edit_author`
(`for k in keys: setattr(author, k, data[k])` with keys restricted
to `{name, surname}`). -/
def applyAuthor (a : Author) (data : Body) : Author :=
  { a with
    name := if hasKey data "name" then getKeyD data "name" else a.name,
    surname := if hasKey data "surname" then getKeyD data "surname"
               else a.surname }

/-- `PUT /authors/<id>` (`edit_author`). -/
def edit_author (s : Store) (author_id : Nat) (data : Body)
    (commit : Option String) : Resp × Store :=
  if data.isEmpty then (.msg 400 "No valid data to update", s)
  else match findAuthor s author_id with
  | none =>
      (.msg 404 ("Author with id=" ++ toString author_id ++ " not found"), s)
  | some author =>
    if hasKey data "name" || hasKey data "surname" then
      match commit with
      | none => (.authorJson 200 (applyAuthor author data),
          { s with authors := s.authors.map (fun b =>
              if b.id == author_id then applyAuthor b data else b) })
      | some e => (.msg 503 ("Error: " ++ e), s)
    else
      (.msg 400 ("Invalid data. Required: <name>, <surname>. Received: "
          ++ errKeys data ++ "."), s)

/-- The field-by-field assignment loop of `edit_quote` (keys restricted
to `{text, rating}`). -/
def applyQuote (q : Quote) (data : Body) : Quote :=
  { q with
    text := if hasKey data "text" then getKeyD data "text" else q.text,
    rating := if hasKey data "rating" then getKeyD data "rating"
              else q.rating }

/-- `PUT /quotes/<id>` (`edit_quote`). -/
def edit_quote (s : Store) (quote_id : Nat) (data : Body)
    (commit : Option String) : Resp × Store :=
  if data.isEmpty then (.msg 400 "No valid data to update", s)
  else match findQuote s quote_id with
  | none =>
      (.msg 404 ("Quote with id=" ++ toString quote_id ++ " not found"), s)
  | some quote =>
    if hasKey data "rating" && ! ratingOk (getKeyD data "rating") then
      (.msg 400 "Rating must be a number between 1 and 5.", s)
    else if hasKey data "text" || hasKey data "rating" then
      match commit with
      | none => (.quoteJson 200 (applyQuote quote data),
          { s with quotes := s.quotes.map (fun q =>
              if q.id == quote_id then applyQuote q data else q) })
      | some e => (.msg 503 ("Error: " ++ e), s)
    else
      (.msg 400 ("Invalid data. Required: <name>, <surname>. Received: "
          ++ errKeys data ++ "."), s)

/-- `DELETE /authors/<id>` (`delete_author`).  The relationship is declared
with `cascade="all, delete-orphan"`, so a committed delete also removes
every quote of the author. -/
def delete_author (s : Store) (author_id : Nat) (commit : Option String) :
    Resp × Store :=
  match findAuthor s author_id with
  | none =>
      (.msg 404 ("Author with id=" ++ toString author_id ++ " not found."), s)
  | some _ =>
    match commit with
    | none => (.msg 200 ("Author with id " ++ toString author_id
          ++ " was deleted."),
        { s with authors := s.authors.filter (fun a => ! (a.id == author_id)),
                 quotes := s.quotes.filter
                   (fun q => ! (q.author_id == author_id)) })
    | some e => (.msg 503 ("Error: " ++ e ++ "."), s)

/-- `DELETE /quotes/` and `DELETE /quotes/<id>` (`delete_quote`); the
slash route binds `quote_id` to `None`. -/
def delete_quote (s : Store) (quote_id : Option Nat)
    (commit : Option String) : Resp × Store :=
  match quote_id with
  | none => (.msg 400 "The request is empty", s)
  | some qid =>
    match findQuote s qid with
    | none => (.msg 404 ("Quote with id=" ++ toString qid ++ " not found"), s)
    | some _ =>
      match commit with
      | none => (.msg 200 ("Quote with id " ++ toString qid
            ++ " was deleted."),
          { s with quotes := s.quotes.filter (fun q => ! (q.id == qid)) })
      | some e => (.msg 503 ("Error: " ++ e), s)

/-- `GET /authors/<id>` (`author_quotes`): fetch one author. -/
def author_quotes (s : Store) (author_id : Nat) : Resp :=
  match findAuthor s author_id with
  | none => .msg 404 ("Author with id=" ++ toString author_id ++ " not found")
  | some a => .authorJson 200 a

/-- `GET /quotes/` and `GET /quotes/<id>` (`get_quote`); the slash route
binds `quotes_id` to `None` and lists all quotes; a single quote is wrapped
in a one-element list by `iterate`. -/
def get_quote (s : Store) (quotes_id : Option Nat) : Resp :=
  match quotes_id with
  | some qid =>
    match findQuote s qid with
    | none => .msg 404 ("Quote with id=" ++ toString qid ++ " not found")
    | some q => .quotesJson 200 [q]
  | none => .quotesJson 200 s.quotes

/-- The query-string of `GET /quotes/filter`: association list of raw
string parameters (`request.args`; `.get` reads the first binding). -/
abbrev Args := List (String × String)

/-- Membership in the filter allow-list `{name, surname, text, rating}`. -/
def allowedKey (k : String) : Bool :=
  k == "name" || k == "surname" || k == "text" || k == "rating"

/-- `data.get(n)` under Python truthiness: a key bound to the empty string
counts as absent (`if data.get(n):` drops it). -/
def argVal (args : Args) (k : String) : Option String :=
  match (args.find? (fun kv => kv.1 == k)).map (fun kv => kv.2) with
  | some v => if v == "" then none else some v
  | none => none

/-- Whether an Author-side filter (`name` or `surname`) was supplied with a
non-empty value, i.e. Python `if data_author:`. -/
def authorFilterPresent (args : Args) : Bool :=
  (argVal args "name").isSome || (argVal args "surname").isSome

/-- `filter_by(**data_author)` on the authors table: TEXT-affinity equality
of the stored value with the query string. -/
def authorMatch (args : Args) (a : Author) : Bool :=
  (match argVal args "name" with
   | some v => a.name == .str v
   | none => true) &&
  (match argVal args "surname" with
   | some v => a.surname == .str v
   | none => true)

/-- `filter_by(**data_quote)` on the quotes table (without the
`author_id` key): `text` compares as TEXT, `rating` has INTEGER affinity so
the query string is coerced to an integer for the comparison. -/
def quoteMatch (args : Args) (q : Quote) : Bool :=
  (match argVal args "text" with
   | some v => q.text == .str v
   | none => true) &&
  (match argVal args "rating" with
   | some v => (match q.rating with
                | .int n => v.toInt? == some n
                | _ => false)
   | none => true)

/-- `GET /quotes/filter` (`filter_quote`): 400 when no allow-listed key is
present; otherwise, when an Author-side filter was given, resolve matching
author ids first and collect, per id, the quotes matching the Quote-side
filters with that `author_id`; else select quotes by the Quote-side
filters alone. -/
def filter_quote (s : Store) (args : Args) : Resp :=
  if ! args.any (fun kv => allowedKey kv.1) then
    .msg 400 ("Request is empty. Required: name, surname, text, rating. Received: "
        ++ String.intercalate ", " (args.map (fun kv => kv.1)) ++ ".")
  else if authorFilterPresent args then
    .quotesJson 200
      (((s.authors.filter (authorMatch args)).map (fun a => a.id)).flatMap
        (fun aid => s.quotes.filter
          (fun q => quoteMatch args q && q.author_id == aid)))
  else
    .quotesJson 200 (s.quotes.filter (quoteMatch args))

/-- The foreign-key condition on the two tables: every quote row
references an existing author row. -/
def refsOk (A : List Author) (Q : List Quote) : Bool :=
  Q.all (fun q => A.any (fun a => a.id == q.author_id))

/-- The foreign-key invariant: every quote in the store references an
existing author. -/
def Store.wf (s : Store) : Bool :=
  refsOk s.authors s.quotes

/-- A sample store with one author (id 1) owning one quote (id 1),
used to instantiate the theorems below on concrete data. -/
def sampleStore : Store :=
  { authors := [{ id := 1, name := .str "Mark", surname := .str "Twain" }],
    quotes := [{ id := 1, author_id := 1, text := .str "hello", rating := .int 5 }],
    nextAuthorId := 2,
    nextQuoteId := 2 }

/-- The store with empty tables. -/
def emptyStore : Store :=
  { authors := [], quotes := [], nextAuthorId := 1, nextQuoteId := 1 }

/-! ## Helper lemmas -/

/-- Strings whose first characters differ are different. -/
lemma ne_of_head (a b : String) (h : a.data.head? ≠ b.data.head?) : a ≠ b := by
  intro he
  exact h (by rw [he])

/-- The first character of an append is that of a non-empty left part. -/
lemma head_data_append (a e : String) (c : Char) (ha : a.data.head? = some c) :
    (a ++ e).data.head? = some c := by
  rw [String.data_append, List.head?_append, ha]
  rfl

/-- Pointwise reading of the foreign-key condition. -/
lemma refsOk_iff (A : List Author) (Q : List Quote) :
    refsOk A Q = true ↔ ∀ q ∈ Q, ∃ a ∈ A, a.id = q.author_id := by
  unfold refsOk
  simp [List.all_eq_true, List.any_eq_true]

/-- Adding an author row preserves the foreign-key condition. -/
lemma refsOk_author_append (A : List Author) (Q : List Quote) (a : Author)
    (h : refsOk A Q = true) : refsOk (A ++ [a]) Q = true := by
  rw [refsOk_iff] at *
  intro q hq
  obtain ⟨b, hb, hid⟩ := h q hq
  exact ⟨b, List.mem_append_left _ hb, hid⟩

/-- Adding a quote row that references an existing author preserves the
foreign-key condition. -/
lemma refsOk_quote_append (A : List Author) (Q : List Quote) (q : Quote)
    (h : refsOk A Q = true) (hq : ∃ a ∈ A, a.id = q.author_id) :
    refsOk A (Q ++ [q]) = true := by
  rw [refsOk_iff] at *
  intro q' hq'
  rcases List.mem_append.mp hq' with h1 | h1
  · exact h q' h1
  · simp only [List.mem_singleton] at h1
    subst h1
    exact hq

/-- An id-preserving rewrite of the author rows preserves the
foreign-key condition. -/
lemma refsOk_author_map (A : List Author) (Q : List Quote) (f : Author → Author)
    (hf : ∀ a, (f a).id = a.id) (h : refsOk A Q = true) :
    refsOk (A.map f) Q = true := by
  rw [refsOk_iff] at *
  intro q hq
  obtain ⟨b, hb, hid⟩ := h q hq
  exact ⟨f b, List.mem_map_of_mem f hb, by rw [hf]; exact hid⟩

/-- A foreign-key preserving rewrite of the quote rows preserves the
foreign-key condition. -/
lemma refsOk_quote_map (A : List Author) (Q : List Quote) (g : Quote → Quote)
    (hg : ∀ q, (g q).author_id = q.author_id) (h : refsOk A Q = true) :
    refsOk A (Q.map g) = true := by
  rw [refsOk_iff] at *
  intro q hq
  rw [List.mem_map] at hq
  obtain ⟨q0, hq0, rfl⟩ := hq
  obtain ⟨b, hb, hid⟩ := h q0 hq0
  exact ⟨b, hb, by rw [hg]; exact hid⟩

/-- Removing quote rows preserves the foreign-key condition. -/
lemma refsOk_quote_filter (A : List Author) (Q : List Quote) (p : Quote → Bool)
    (h : refsOk A Q = true) : refsOk A (Q.filter p) = true := by
  rw [refsOk_iff] at *
  intro q hq
  exact h q (List.mem_filter.mp hq).1

/-- Removing an author together with every quote referencing it preserves
the foreign-key condition. -/
lemma refsOk_cascade (A : List Author) (Q : List Quote) (aid : Nat)
    (h : refsOk A Q = true) :
    refsOk (A.filter (fun a => ! (a.id == aid)))
      (Q.filter (fun q => ! (q.author_id == aid))) = true := by
  rw [refsOk_iff] at *
  intro q hq
  rw [List.mem_filter] at hq
  obtain ⟨hqm, hne⟩ := hq
  obtain ⟨b, hb, hid⟩ := h q hqm
  refine ⟨b, List.mem_filter.mpr ⟨hb, ?_⟩, hid⟩
  simpa [hid] using hne

/-! ## Claims -/

/-- C10: a DELETE request to the bare `/quotes/` route (no quote id)
always returns 400 with the message `The request is empty` and leaves the
store unchanged, whatever the commit outcome would have been. -/
theorem C10_delete_quote_without_id (s : Store) (commit : Option String) :
    delete_quote s none commit = (.msg 400 "The request is empty", s) := rfl

/-- C5: `POST /authors/<id>/quotes` with a non-empty body for an id with no
matching author answers 404 and leaves the store unchanged (no quote is
created). -/
theorem C5_create_quote_missing_author (s : Store) (author_id : Nat)
    (data : Body) (commit : Option String)
    (hne : data ≠ []) (habs : findAuthor s author_id = none) :
    create_quote s author_id data commit =
      (.msg 404 ("Author with id=" ++ toString author_id ++ " not found"), s) := by
  have hemp : data.isEmpty = false := by
    simpa [List.isEmpty_iff] using hne
  unfold create_quote
  rw [hemp, habs]
  rfl

/-- Witness for C5 at the empty store. -/
theorem C5_witness :
    create_quote emptyStore 1 [("text", JVal.str "x")] none =
      (.msg 404 ("Author with id=" ++ toString 1 ++ " not found"), emptyStore) :=
  C5_create_quote_missing_author emptyStore 1 [("text", JVal.str "x")] none
    (by decide) rfl

/-- C8: an author created with a `name` key but no `surname` key gets
surname `""` and a 201 response carrying the created record; a quote
created (for an existing author) with a `text` key but no `rating` key gets
rating `1` and a 201 response carrying the created record. -/
theorem C8_creation_defaults (s : Store) (data qdata : Body) (author_id : Nat)
    (a : Author)
    (hne : data ≠ []) (hname : hasKey data "name" = true)
    (hnosur : hasKey data "surname" = false)
    (hqne : qdata ≠ []) (htext : hasKey qdata "text" = true)
    (hnorat : hasKey qdata "rating" = false)
    (hfound : findAuthor s author_id = some a) :
    (create_author s data none).1 =
      .authorJson 201 ⟨s.nextAuthorId, getKeyD data "name", .str ""⟩ ∧
    (create_quote s author_id qdata none).1 =
      .quoteJson 201 ⟨s.nextQuoteId, a.id, getKeyD qdata "text", .int 1⟩ := by
  have hemp : data.isEmpty = false := by
    simpa [List.isEmpty_iff] using hne
  have hqemp : qdata.isEmpty = false := by
    simpa [List.isEmpty_iff] using hqne
  constructor
  · unfold create_author
    rw [hemp, hname, hnosur]
    rfl
  · unfold create_quote
    rw [hqemp, hfound, hnorat, htext]
    rfl

/-- Witness for C8: create an author named Twain and a quote without a
rating in the sample store. -/
theorem C8_witness :
    (create_author sampleStore [("name", JVal.str "Twain")] none).1 =
      .authorJson 201 ⟨2, .str "Twain", .str ""⟩ ∧
    (create_quote sampleStore 1 [("text", JVal.str "y")] none).1 =
      .quoteJson 201 ⟨2, 1, .str "y", .int 1⟩ :=
  C8_creation_defaults sampleStore [("name", JVal.str "Twain")]
    [("text", JVal.str "y")] 1 ⟨1, .str "Mark", .str "Twain"⟩
    (by decide) (by decide) (by decide) (by decide) (by decide) (by decide) rfl

/-- After filtering out the author with id `aid`, no lookup of `aid`
succeeds. -/
lemma find_filter_ne_author (A : List Author) (aid : Nat) :
    (A.filter (fun a => ! (a.id == aid))).find? (fun a => a.id == aid) = none := by
  rw [List.find?_eq_none]
  intro x hx
  simpa using (List.mem_filter.mp hx).2

/-- After filtering out the quote with id `qid`, no lookup of `qid`
succeeds. -/
lemma find_filter_ne_quote (Q : List Quote) (qid : Nat) :
    (Q.filter (fun q => ! (q.id == qid))).find? (fun q => q.id == qid) = none := by
  rw [List.find?_eq_none]
  intro x hx
  simpa using (List.mem_filter.mp hx).2

/-- C7: after a successful DELETE of an author (resp. quote) by id, a GET
of the same resource by that id answers 404. -/
theorem C7_get_after_delete (s : Store) (aid qid : Nat) :
    ((delete_author s aid none).1.status = 200 →
      author_quotes (delete_author s aid none).2 aid =
        .msg 404 ("Author with id=" ++ toString aid ++ " not found")) ∧
    ((delete_quote s (some qid) none).1.status = 200 →
      get_quote (delete_quote s (some qid) none).2 (some qid) =
        .msg 404 ("Quote with id=" ++ toString qid ++ " not found")) := by
  constructor
  · intro h
    cases hfa : findAuthor s aid with
    | none =>
      exfalso
      unfold delete_author at h
      rw [hfa] at h
      have h' : (404 : Nat) = 200 := h
      exact absurd h' (by decide)
    | some a =>
      have h2 : findAuthor (delete_author s aid none).2 aid = none := by
        unfold delete_author
        rw [hfa]
        exact find_filter_ne_author s.authors aid
      unfold author_quotes
      rw [h2]
  · intro h
    cases hfq : findQuote s qid with
    | none =>
      exfalso
      simp only [delete_quote] at h
      rw [hfq] at h
      have h' : (404 : Nat) = 200 := h
      exact absurd h' (by decide)
    | some q =>
      have h2 : findQuote (delete_quote s (some qid) none).2 qid = none := by
        simp only [delete_quote]
        rw [hfq]
        exact find_filter_ne_quote s.quotes qid
      simp only [get_quote]
      rw [h2]

/-- Witness for C7 in the sample store. -/
theorem C7_witness :
    author_quotes (delete_author sampleStore 1 none).2 1 =
      .msg 404 ("Author with id=" ++ toString 1 ++ " not found") ∧
    get_quote (delete_quote sampleStore (some 1) none).2 (some 1) =
      .msg 404 ("Quote with id=" ++ toString 1 ++ " not found") :=
  ⟨(C7_get_after_delete sampleStore 1 1).1 (by decide),
   (C7_get_after_delete sampleStore 1 1).2 (by decide)⟩

/-- A filter parameter from the allow-list whose every occurrence carries
the empty string is dropped by the truthiness test. -/
lemma argVal_eq_none_of_empty (args : Args) (k : String)
    (hk : allowedKey k = true)
    (hempty : ∀ kv ∈ args, allowedKey kv.1 = true → kv.2 = "") :
    argVal args k = none := by
  unfold argVal
  cases hf : args.find? (fun kv => kv.1 == k) with
  | none => rfl
  | some kv =>
    have hmem := List.mem_of_find?_eq_some hf
    have hp := List.find?_some hf
    have hk1 : kv.1 = k := by simpa using hp
    have h2 : kv.2 = "" := hempty kv hmem (by rw [hk1]; exact hk)
    simp [h2]

/-- C9: a filter request carrying at least one allow-listed key where every
allow-listed key has an empty value is not rejected: all values are
dropped and the full quote list is returned with status 200. -/
theorem C9_empty_filter_values (s : Store) (args : Args)
    (hsome : args.any (fun kv => allowedKey kv.1) = true)
    (hempty : ∀ kv ∈ args, allowedKey kv.1 = true → kv.2 = "") :
    filter_quote s args = .quotesJson 200 s.quotes := by
  have hn := argVal_eq_none_of_empty args "name" (by decide) hempty
  have hs := argVal_eq_none_of_empty args "surname" (by decide) hempty
  have ht := argVal_eq_none_of_empty args "text" (by decide) hempty
  have hr := argVal_eq_none_of_empty args "rating" (by decide) hempty
  have hafp : authorFilterPresent args = false := by
    unfold authorFilterPresent
    rw [hn, hs]
    rfl
  have hqm : ∀ q, quoteMatch args q = true := by
    intro q
    unfold quoteMatch
    rw [ht, hr]
    rfl
  unfold filter_quote
  rw [hsome, hafp]
  simp only [Bool.not_true, Bool.false_eq_true, if_false]
  rw [List.filter_eq_self.mpr (fun q _ => hqm q)]

/-- Witness for C9: `?name=` on the sample store yields every quote. -/
theorem C9_witness :
    filter_quote sampleStore [("name", "")] =
      .quotesJson 200 sampleStore.quotes :=
  C9_empty_filter_values sampleStore [("name", "")] (by decide) (by decide)

/-- C3: the foreign-key invariant (every quote references an existing
author) is preserved by every mutating handler, and deleting an author
removes every quote whose `author_id` is the deleted id. -/
theorem C3_foreign_key_invariant (s : Store) (hwf : s.wf = true) :
    (∀ data commit, ((create_author s data commit).2).wf = true) ∧
    (∀ aid data commit, ((create_quote s aid data commit).2).wf = true) ∧
    (∀ aid data commit, ((edit_author s aid data commit).2).wf = true) ∧
    (∀ qid data commit, ((edit_quote s qid data commit).2).wf = true) ∧
    (∀ aid commit, ((delete_author s aid commit).2).wf = true) ∧
    (∀ qid commit, ((delete_quote s qid commit).2).wf = true) ∧
    (∀ aid, ∀ q ∈ (delete_author s aid none).2.quotes, q.author_id ≠ aid) := by
  have hwf' : refsOk s.authors s.quotes = true := hwf
  refine ⟨?_, ?_, ?_, ?_, ?_, ?_, ?_⟩
  · intro data commit
    unfold create_author
    split
    · exact hwf
    · split
      · cases commit with
        | none => exact refsOk_author_append _ _ _ hwf'
        | some e => exact hwf
      · exact hwf
  · intro aid data commit
    unfold create_quote
    split
    · exact hwf
    · split
      next => exact hwf
      next author heq =>
        split
        · exact hwf
        · split
          · cases commit with
            | none =>
              refine refsOk_quote_append _ _ _ hwf' ⟨author, ?_, rfl⟩
              exact List.mem_of_find?_eq_some heq
            | some e => exact hwf
          · exact hwf
  · intro aid data commit
    unfold edit_author
    split
    · exact hwf
    · split
      next => exact hwf
      next author heq =>
        split
        · cases commit with
          | none =>
            refine refsOk_author_map _ _ _ ?_ hwf'
            intro b
            dsimp only
            split <;> rfl
          | some e => exact hwf
        · exact hwf
  · intro qid data commit
    unfold edit_quote
    split
    · exact hwf
    · split
      next => exact hwf
      next quote heq =>
        split
        · exact hwf
        · split
          · cases commit with
            | none =>
              refine refsOk_quote_map _ _ _ ?_ hwf'
              intro b
              dsimp only
              split <;> rfl
            | some e => exact hwf
          · exact hwf
  · intro aid commit
    unfold delete_author
    split
    · exact hwf
    · cases commit with
      | none => exact refsOk_cascade _ _ _ hwf'
      | some e => exact hwf
  · intro qid commit
    cases qid with
    | none => exact hwf
    | some q =>
      simp only [delete_quote]
      split
      · exact hwf
      · cases commit with
        | none => exact refsOk_quote_filter _ _ _ hwf'
        | some e => exact hwf
  · intro aid q hq
    cases hfa : findAuthor s aid with
    | none =>
      intro hcontra
      unfold delete_author at hq
      rw [hfa] at hq
      have hq' : q ∈ s.quotes := hq
      obtain ⟨a, ha, hid⟩ := (refsOk_iff _ _).mp hwf' q hq'
      have hnone := List.find?_eq_none.mp hfa a ha
      apply hnone
      simp [hid, hcontra]
    | some a =>
      unfold delete_author at hq
      rw [hfa] at hq
      have hq' : q ∈ s.quotes.filter (fun q => ! (q.author_id == aid)) := hq
      simpa using (List.mem_filter.mp hq').2

/-- Witness for C3: creating a quote in the sample store keeps the
foreign-key invariant. -/
theorem C3_witness :
    ((create_quote sampleStore 1 [("text", JVal.str "z")] none).2).wf = true :=
  (C3_foreign_key_invariant sampleStore (by decide)).2.1 1
    [("text", JVal.str "z")] none

/-- Looking up an allow-listed key is unaffected by discarding the
non-allow-listed entries. -/
lemma find?_filter_allowed (args : Args) (k : String) (hk : allowedKey k = true) :
    (args.filter (fun kv => allowedKey kv.1)).find? (fun kv => kv.1 == k) =
      args.find? (fun kv => kv.1 == k) := by
  induction args with
  | nil => rfl
  | cons kv rest ih =>
    by_cases h2 : allowedKey kv.1 = true
    · by_cases h1 : kv.1 = k
      · rw [List.filter_cons, if_pos h2, List.find?_cons_of_pos _ (by simp [h1]),
            List.find?_cons_of_pos _ (by simp [h1])]
      · rw [List.filter_cons, if_pos h2, List.find?_cons_of_neg _ (by simp [h1]),
            List.find?_cons_of_neg _ (by simp [h1]), ih]
    · have h1 : ¬ kv.1 = k := fun hc => h2 (by rw [hc]; exact hk)
      rw [List.filter_cons, if_neg h2, List.find?_cons_of_neg _ (by simp [h1]), ih]

/-- `argVal` at an allow-listed key is unaffected by discarding the
non-allow-listed entries. -/
lemma argVal_filter_allowed (args : Args) (k : String) (hk : allowedKey k = true) :
    argVal (args.filter (fun kv => allowedKey kv.1)) k = argVal args k := by
  unfold argVal
  rw [find?_filter_allowed args k hk]

/-- The Author-side match is unaffected by non-allow-listed entries. -/
lemma authorMatch_filter (args : Args) :
    authorMatch (args.filter (fun kv => allowedKey kv.1)) = authorMatch args := by
  funext a
  unfold authorMatch
  rw [argVal_filter_allowed args "name" (by decide),
      argVal_filter_allowed args "surname" (by decide)]

/-- The Quote-side match is unaffected by non-allow-listed entries. -/
lemma quoteMatch_filter (args : Args) :
    quoteMatch (args.filter (fun kv => allowedKey kv.1)) = quoteMatch args := by
  funext q
  unfold quoteMatch
  rw [argVal_filter_allowed args "text" (by decide),
      argVal_filter_allowed args "rating" (by decide)]

/-- Presence of an Author-side filter is unaffected by non-allow-listed
entries. -/
lemma authorFilterPresent_filter (args : Args) :
    authorFilterPresent (args.filter (fun kv => allowedKey kv.1)) =
      authorFilterPresent args := by
  unfold authorFilterPresent
  rw [argVal_filter_allowed args "name" (by decide),
      argVal_filter_allowed args "surname" (by decide)]

/-- Whether some allow-listed key occurs is unaffected by discarding the
non-allow-listed entries. -/
lemma any_filter_allowed (args : Args) :
    (args.filter (fun kv => allowedKey kv.1)).any (fun kv => allowedKey kv.1) =
      args.any (fun kv => allowedKey kv.1) := by
  rw [List.any_filter]
  simp

/-- C1: `GET /quotes/filter` answers 400 exactly when no query key belongs
to the allow-list `{name, surname, text, rating}`, and its behaviour on
recognized requests only depends on the allow-listed parameters (all
others are ignored). -/
theorem C1_filter_allowlist (s : Store) (args : Args) :
    ((filter_quote s args).status = 400 ↔
      args.any (fun kv => allowedKey kv.1) = false) ∧
    (args.any (fun kv => allowedKey kv.1) = true →
      filter_quote s (args.filter (fun kv => allowedKey kv.1)) =
        filter_quote s args) := by
  constructor
  · cases hany : args.any (fun kv => allowedKey kv.1) with
    | false =>
      unfold filter_quote
      rw [hany]
      simp [Resp.status]
    | true =>
      unfold filter_quote
      rw [hany]
      cases hafp : authorFilterPresent args with
      | false => simp [hafp, Resp.status]
      | true => simp [hafp, Resp.status]
  · intro hany
    unfold filter_quote
    rw [any_filter_allowed args, hany, authorFilterPresent_filter args,
        authorMatch_filter args, quoteMatch_filter args]
    simp only [Bool.not_true, Bool.false_eq_true, if_false]

/-- Witness for C1: one recognized key next to an unrecognized one. -/
theorem C1_witness :
    filter_quote sampleStore
        ([("bogus", "1"), ("name", "Mark")].filter (fun kv => allowedKey kv.1)) =
      filter_quote sampleStore [("bogus", "1"), ("name", "Mark")] :=
  (C1_filter_allowlist sampleStore [("bogus", "1"), ("name", "Mark")]).2
    (by decide)

/-- C6: on any 200 answer of `GET /quotes/filter`, a quote is in the result
exactly when it is stored, matches the Quote-side filters, and — whenever an
Author-side filter was given — its author matches the Author-side filters. -/
theorem C6_filter_semantics (s : Store) (args : Args) (qs : List Quote)
    (h : filter_quote s args = .quotesJson 200 qs) (q : Quote) :
    q ∈ qs ↔
      q ∈ s.quotes ∧ quoteMatch args q = true ∧
        (authorFilterPresent args = true →
          ∃ a ∈ s.authors, authorMatch args a = true ∧ q.author_id = a.id) := by
  unfold filter_quote at h
  cases hany : args.any (fun kv => allowedKey kv.1) with
  | false =>
    rw [hany] at h
    simp at h
  | true =>
    rw [hany] at h
    cases hafp : authorFilterPresent args with
    | false =>
      rw [hafp] at h
      simp only [Bool.not_true, Bool.false_eq_true, if_false,
        Resp.quotesJson.injEq] at h
      obtain ⟨-, rfl⟩ := h
      simp [List.mem_filter, hafp]
    | true =>
      rw [hafp] at h
      simp only [Bool.not_true, Bool.false_eq_true, if_false, if_pos,
        Resp.quotesJson.injEq] at h
      obtain ⟨-, rfl⟩ := h
      simp only [List.mem_flatMap, List.mem_map, List.mem_filter, hafp,
        true_implies, Bool.and_eq_true, beq_iff_eq]
      constructor
      · rintro ⟨aid, ⟨a, ⟨ha, ham⟩, rfl⟩, hq, hqm, hqa⟩
        exact ⟨hq, hqm, a, ha, ham, hqa⟩
      · rintro ⟨hq, hqm, a, ha, ham, hqa⟩
        exact ⟨a.id, ⟨a, ⟨ha, ham⟩, rfl⟩, hq, hqm, hqa⟩

/-- Witness for C6: filtering the sample store by author name. -/
theorem C6_witness :
    (⟨1, 1, JVal.str "hello", JVal.int 5⟩ : Quote) ∈
        [(⟨1, 1, JVal.str "hello", JVal.int 5⟩ : Quote)] ↔
      (⟨1, 1, JVal.str "hello", JVal.int 5⟩ : Quote) ∈ sampleStore.quotes ∧
      quoteMatch [("name", "Mark")] ⟨1, 1, JVal.str "hello", JVal.int 5⟩ = true ∧
      (authorFilterPresent [("name", "Mark")] = true →
        ∃ a ∈ sampleStore.authors, authorMatch [("name", "Mark")] a = true ∧
          (⟨1, 1, JVal.str "hello", JVal.int 5⟩ : Quote).author_id = a.id) :=
  C6_filter_semantics sampleStore [("name", "Mark")]
    [⟨1, 1, JVal.str "hello", JVal.int 5⟩] rfl _

/-- Counterexample to C2 as stated: in the sample store, quote 1 exists and
the body `{"rating": 7}` has a non-empty intersection with the mutable
fields `{text, rating}`, yet `PUT /quotes/1` answers 400 and assigns
nothing (the store is unchanged), instead of assigning and committing. -/
theorem C2_counterexample :
    findQuote sampleStore 1 = some ⟨1, 1, JVal.str "hello", JVal.int 5⟩ ∧
    hasKey [("rating", JVal.int 7)] "rating" = true ∧
    edit_quote sampleStore 1 [("rating", JVal.int 7)] none =
      (.msg 400 "Rating must be a number between 1 and 5.", sampleStore) :=
  ⟨rfl, rfl, rfl⟩

/-- C2 (amended): `PUT /authors/<id>` and `PUT /quotes/<id>` with a
non-empty body on an existing record answer 400 and change nothing when no
supplied key is a mutable field; otherwise — provided, for Quote, that a
supplied `rating` passes the rating validation — every recognized field is
assigned and committed (status 200 with the updated record), and on store
failure the transaction is rolled back (store unchanged) with status 503. -/
theorem C2_update_contract (s : Store) (rid : Nat) (data : Body)
    (hne : data ≠ []) :
    (∀ a, findAuthor s rid = some a →
      ((hasKey data "name" || hasKey data "surname") = false →
        ∀ commit, edit_author s rid data commit =
          (.msg 400 ("Invalid data. Required: <name>, <surname>. Received: "
              ++ errKeys data ++ "."), s)) ∧
      ((hasKey data "name" || hasKey data "surname") = true →
        edit_author s rid data none =
          (.authorJson 200 (applyAuthor a data),
           { s with authors := s.authors.map (fun b =>
               if b.id == rid then applyAuthor b data else b) }) ∧
        ∀ e, edit_author s rid data (some e) =
          (.msg 503 ("Error: " ++ e), s))) ∧
    (∀ q, findQuote s rid = some q →
      (hasKey data "rating" = true → ratingOk (getKeyD data "rating") = true) →
      ((hasKey data "text" || hasKey data "rating") = false →
        ∀ commit, edit_quote s rid data commit =
          (.msg 400 ("Invalid data. Required: <name>, <surname>. Received: "
              ++ errKeys data ++ "."), s)) ∧
      ((hasKey data "text" || hasKey data "rating") = true →
        edit_quote s rid data none =
          (.quoteJson 200 (applyQuote q data),
           { s with quotes := s.quotes.map (fun b =>
               if b.id == rid then applyQuote b data else b) }) ∧
        ∀ e, edit_quote s rid data (some e) =
          (.msg 503 ("Error: " ++ e), s))) := by
  have hemp : data.isEmpty = false := by
    simpa [List.isEmpty_iff] using hne
  constructor
  · intro a ha
    constructor
    · intro hkeys commit
      unfold edit_author
      rw [hemp, ha, hkeys]
      simp
    · intro hkeys
      constructor
      · unfold edit_author
        rw [hemp, ha, hkeys]
        simp
      · intro e
        unfold edit_author
        rw [hemp, ha, hkeys]
        simp
  · intro q hq hrat
    have hcond : (hasKey data "rating" && ! ratingOk (getKeyD data "rating"))
        = false := by
      cases hr : hasKey data "rating" with
      | false => rfl
      | true => rw [hrat hr]; rfl
    constructor
    · intro hkeys commit
      unfold edit_quote
      rw [hemp, hq, hcond, hkeys]
      simp
    · intro hkeys
      constructor
      · unfold edit_quote
        rw [hemp, hq, hcond, hkeys]
        simp
      · intro e
        unfold edit_quote
        rw [hemp, hq, hcond, hkeys]
        simp

/-- Witness for C2: renaming the sample author succeeds and rewrites the
author row. -/
theorem C2_witness :
    edit_author sampleStore 1 [("name", JVal.str "Sam")] none =
      (.authorJson 200 ⟨1, JVal.str "Sam", JVal.str "Twain"⟩,
       { sampleStore with authors := [⟨1, JVal.str "Sam", JVal.str "Twain"⟩] }) ∧
    edit_author sampleStore 1 [("name", JVal.str "Sam")] (some "down") =
      (.msg 503 ("Error: " ++ "down"), sampleStore) := by
  have h := ((C2_update_contract sampleStore 1 [("name", JVal.str "Sam")]
      (by decide)).1 ⟨1, JVal.str "Mark", JVal.str "Twain"⟩ rfl).2 (by decide)
  exact ⟨h.1, h.2 "down"⟩

/-- Counterexample to C4 as stated: `POST /authors/1/quotes` with the
invalid rating 0 in a store with no author 1 answers 404, not 400. -/
theorem C4_counterexample :
    (create_quote emptyStore 1
        [("rating", JVal.int 0), ("text", JVal.str "x")] none).1 =
      .msg 404 ("Author with id=" ++ toString 1 ++ " not found") ∧
    (create_quote emptyStore 1
        [("rating", JVal.int 0), ("text", JVal.str "x")] none).1.status ≠ 400 :=
  ⟨rfl, by decide⟩

/-- C4 (amended): provided the referenced author (for POST) or quote (for
PUT) exists, a body carrying a `rating` that is not an integer in [1,5]
yields 400 and leaves the store unchanged; and a `rating` that is an
integer in [1,5] passes the check: the rating-error response is never
produced. -/
theorem C4_rating_validation (s : Store) (rid : Nat) (data : Body)
    (hne : data ≠ []) (hr : hasKey data "rating" = true) :
    (ratingOk (getKeyD data "rating") = false →
      (∀ a, findAuthor s rid = some a → ∀ commit,
        create_quote s rid data commit =
          (.msg 400 "Rating must be a number between 1 and 5.", s)) ∧
      (∀ q, findQuote s rid = some q → ∀ commit,
        edit_quote s rid data commit =
          (.msg 400 "Rating must be a number between 1 and 5.", s))) ∧
    (∀ n, getKey data "rating" = some (.int n) → 1 ≤ n → n ≤ 5 →
      ∀ commit,
        (create_quote s rid data commit).1 ≠
          .msg 400 "Rating must be a number between 1 and 5." ∧
        (edit_quote s rid data commit).1 ≠
          .msg 400 "Rating must be a number between 1 and 5.") := by
  have hemp : data.isEmpty = false := by
    simpa [List.isEmpty_iff] using hne
  constructor
  · intro hbad
    constructor
    · intro a ha commit
      unfold create_quote
      rw [hemp, ha, hr, hbad]
      rfl
    · intro q hq commit
      unfold edit_quote
      rw [hemp, hq, hr, hbad]
      rfl
  · intro n hget h1 h5 commit
    have hok : ratingOk (getKeyD data "rating") = true := by
      unfold getKeyD
      rw [hget]
      simp [ratingOk, h1, h5]
    have hmsg : ∀ x : String,
        ("Invalid data. Required: <text>, <rating> (optional). Received: "
            ++ x ++ ".") ≠ "Rating must be a number between 1 and 5." := by
      intro x
      apply ne_of_head
      have hI : ("Invalid data. Required: <text>, <rating> (optional). Received: "
          : String).data.head? = some 'I' := by decide
      rw [head_data_append _ _ 'I' (head_data_append _ _ 'I' hI)]
      decide
    constructor
    · unfold create_quote
      rw [hemp]
      cases ha : findAuthor s rid with
      | none => simp
      | some a =>
        rw [hr, hok]
        cases ht : hasKey data "text" with
        | false =>
          simp only [Bool.not_true, Bool.and_false, Bool.false_eq_true,
            if_false]
          simpa using hmsg (errKeys data)
        | true =>
          cases commit with
          | none => simp
          | some e => simp
    · unfold edit_quote
      rw [hemp]
      cases hq : findQuote s rid with
      | none => simp
      | some q =>
        rw [hr, hok]
        cases commit with
        | none => simp
        | some e => simp

/-- Witness for C4: the invalid rating 0 and the valid rating 5 against the
sample store. -/
theorem C4_witness :
    create_quote sampleStore 1
        [("rating", JVal.int 0), ("text", JVal.str "x")] none =
      (.msg 400 "Rating must be a number between 1 and 5.", sampleStore) ∧
    (create_quote sampleStore 1
        [("rating", JVal.int 5), ("text", JVal.str "x")] none).1 ≠
      .msg 400 "Rating must be a number between 1 and 5." := by
  constructor
  · exact ((C4_rating_validation sampleStore 1
        [("rating", JVal.int 0), ("text", JVal.str "x")] (by decide)
        (by decide)).1 (by decide)).1 ⟨1, JVal.str "Mark", JVal.str "Twain"⟩
        rfl none
  · exact ((C4_rating_validation sampleStore 1
        [("rating", JVal.int 5), ("text", JVal.str "x")] (by decide)
        (by decide)).2 5 rfl (by decide) (by decide) none).1

end QuotesApp
